import Mathlib

/-!
Shallow embedding of `rendy`'s resource manager (`src/resource/src/resources.rs`).

The manager (`Resources`) owns, per resource kind (buffer / image):
  * a `Terminal` queue receiving the `Inner` payloads of implicitly dropped
    handles (the Escape/Terminal channel), and
  * a pending-destruction list (`dropped_buffers` / `dropped_images`).

Device and allocator are modelled as deterministic mocks; every device or
allocator call an operation performs is recorded in an event log, in call
order, so that claims about which calls happen (and in which order) become
statements about the log.  Raw object handles, memory handles, flags,
alignments and image parameters are modelled as `Nat`.
-/

namespace Rendy

/-- A memory block issued by the heaps allocator: memory handle plus byte
range (`block.memory()` and `block.range()` in the source). -/
structure MemoryBlock where
  memory : Nat
  rangeStart : Nat
  rangeEnd : Nat
deriving DecidableEq, Repr

/-- `Inner` representation of a bound resource: raw device object plus the
memory block it is bound to.  The `relevant` leak guard is zero-sized; its
disposal is recorded as an event by `destroy_buffer_inner` /
`destroy_image_inner`. -/
structure Inner where
  raw : Nat
  block : MemoryBlock
deriving DecidableEq, Repr

/-- `buffer::Info`: plain descriptor of the buffer creation parameters. -/
structure BufferInfo where
  align : Nat
  size : Nat
  usage : Nat
deriving DecidableEq, Repr

/-- `image::Info`: plain descriptor of the image creation parameters. -/
structure ImageInfo where
  align : Nat
  kind : Nat
  levels : Nat
  format : Nat
  tiling : Nat
  viewCaps : Nat
  usage : Nat
deriving DecidableEq, Repr

/-- `buffer::Buffer`: public handle, an escaped `Inner` plus its info. -/
structure Buffer where
  inner : Inner
  info : BufferInfo
deriving DecidableEq, Repr

/-- `image::Image`: public handle, an escaped `Inner` plus its info. -/
structure Image where
  inner : Inner
  info : ImageInfo
deriving DecidableEq, Repr

/-- The `Usage` trait: `flags()` (native usage flags) and `memory()`
(memory property requirements), both opaque tokens here. -/
structure Usage where
  flags : Nat
  memory : Nat
deriving DecidableEq, Repr

/-- One device or allocator call, as recorded in the event log. -/
inductive Event where
  | deviceCreateBuffer (size flags : Nat)
  | deviceGetBufferRequirements (raw : Nat)
  | deviceCreateImage (kind levels format tiling flags viewCaps : Nat)
  | deviceGetImageRequirements (raw : Nat)
  | heapsAllocate (typeMask props size align : Nat)
  | deviceBindBufferMemory (memory offset raw : Nat)
  | deviceBindImageMemory (memory offset raw : Nat)
  | deviceDestroyBuffer (raw : Nat)
  | deviceDestroyImage (raw : Nat)
  | heapsFree (blk : MemoryBlock)
  | relevantDispose
deriving DecidableEq, Repr

/-- Error cases surfaced by the fallible creation steps. -/
inductive RError where
  | deviceCreation
  | allocation
  | bindFailure
deriving DecidableEq, Repr

deriving instance DecidableEq for Except

/-- Deterministic device mock: failure injection flags, the memory
requirements it reports (`size`, `alignment`, `type_mask` — the latter a
`u64` in gfx-hal, hence unbounded here), and the id of the raw object the
next successful create call returns. -/
structure DeviceMock where
  createFails : Bool
  bindFails : Bool
  reqSize : Nat
  reqAlignment : Nat
  reqTypeMask : Nat
  nextRaw : Nat
deriving DecidableEq, Repr

/-- Deterministic heaps-allocator mock: failure injection flag and the
block a successful allocation returns. -/
structure HeapsMock where
  allocFails : Bool
  blockMemory : Nat
  blockStart : Nat
  blockEnd : Nat
deriving DecidableEq, Repr

/-- The `Resources` manager state: the two Terminal queues (contents
queued by implicit drops, in arrival order) and the two pending-destruction
lists (`dropped_buffers`, `dropped_images`), each in push order. -/
structure ResourcesState where
  buffers : List Inner
  images : List Inner
  droppedBuffers : List Inner
  droppedImages : List Inner
deriving DecidableEq, Repr

/-- `Resources::new`: created empty. -/
def ResourcesState.new : ResourcesState := ⟨[], [], [], []⟩

/-- `Resources::create_buffer`: create the raw buffer through the device
(propagating failure), query its requirements, allocate a block with
`max(reqs.alignment, align)` and `reqs.type_mask as u32` (truncating cast,
hence `% 2 ^ 32`), bind, and wrap the `Inner` via the buffer Terminal's
`escape` (which queues nothing).  Returns the result, the manager state
after the call, and the log of device/allocator calls in order. -/
def createBuffer (dev : DeviceMock) (hp : HeapsMock) (st : ResourcesState)
    (align size : Nat) (usage : Usage) :
    Except RError Buffer × ResourcesState × List Event :=
  let e1 := Event.deviceCreateBuffer size usage.flags
  if dev.createFails then
    (Except.error RError.deviceCreation, st, [e1])
  else
    let buf := dev.nextRaw
    let e2 := Event.deviceGetBufferRequirements buf
    let e3 := Event.heapsAllocate (dev.reqTypeMask % 2 ^ 32) usage.memory
      dev.reqSize (max dev.reqAlignment align)
    if hp.allocFails then
      (Except.error RError.allocation, st, [e1, e2, e3])
    else
      let block : MemoryBlock := ⟨hp.blockMemory, hp.blockStart, hp.blockEnd⟩
      let e4 := Event.deviceBindBufferMemory block.memory block.rangeStart buf
      if dev.bindFails then
        (Except.error RError.bindFailure, st, [e1, e2, e3, e4])
      else
        (Except.ok { inner := ⟨buf, block⟩, info := ⟨align, size, usage.flags⟩ },
          st, [e1, e2, e3, e4])

/-- `Resources::create_image`: mirrors `create_buffer` with the image
creation parameters and the image variants of the device calls. -/
def createImage (dev : DeviceMock) (hp : HeapsMock) (st : ResourcesState)
    (align kind levels format tiling viewCaps : Nat) (usage : Usage) :
    Except RError Image × ResourcesState × List Event :=
  let e1 := Event.deviceCreateImage kind levels format tiling usage.flags viewCaps
  if dev.createFails then
    (Except.error RError.deviceCreation, st, [e1])
  else
    let img := dev.nextRaw
    let e2 := Event.deviceGetImageRequirements img
    let e3 := Event.heapsAllocate (dev.reqTypeMask % 2 ^ 32) usage.memory
      dev.reqSize (max dev.reqAlignment align)
    if hp.allocFails then
      (Except.error RError.allocation, st, [e1, e2, e3])
    else
      let block : MemoryBlock := ⟨hp.blockMemory, hp.blockStart, hp.blockEnd⟩
      let e4 := Event.deviceBindImageMemory block.memory block.rangeStart img
      if dev.bindFails then
        (Except.error RError.bindFailure, st, [e1, e2, e3, e4])
      else
        (Except.ok
          { inner := ⟨img, block⟩,
            info := ⟨align, kind, levels, format, tiling, viewCaps, usage.flags⟩ },
          st, [e1, e2, e3, e4])

/-- `Resources::destroy_buffer`: unwrap the Escape with `into_inner` and
push the `Inner` onto `dropped_buffers`.  No device or allocator call is
made, so the event log is empty. -/
def destroyBuffer (st : ResourcesState) (b : Buffer) :
    ResourcesState × List Event :=
  ({ st with droppedBuffers := st.droppedBuffers ++ [b.inner] }, [])

/-- `Resources::destroy_image`: unwrap the Escape with `into_inner` and
push the `Inner` onto `dropped_images`.  No device or allocator call. -/
def destroyImage (st : ResourcesState) (i : Image) :
    ResourcesState × List Event :=
  ({ st with droppedImages := st.droppedImages ++ [i.inner] }, [])

/-- Modelled from the spec: the Escape/Terminal channel source
(`escape.rs`) is not part of the given sources.  Per the spec, dropping an
`Escape` without `into_inner` "attempts to push payload to the associated
Terminal's queue"; the Terminal queue receives payloads in arrival order.
Dropping a buffer handle therefore appends its `Inner` to the buffer
Terminal queue, without any device or allocator call. -/
def dropBuffer (st : ResourcesState) (b : Buffer) :
    ResourcesState × List Event :=
  ({ st with buffers := st.buffers ++ [b.inner] }, [])

/-- Modelled from the spec: implicit drop of an image handle appends its
`Inner` to the image Terminal queue (see `dropBuffer`). -/
def dropImage (st : ResourcesState) (i : Image) :
    ResourcesState × List Event :=
  ({ st with images := st.images ++ [i.inner] }, [])

/-- `Resources::destroy_buffer_inner`: destroy the raw object through the
device, free the block through the allocator, dispose the leak guard —
exactly these calls, in this order. -/
def destroyBufferInner (inner : Inner) : List Event :=
  [Event.deviceDestroyBuffer inner.raw, Event.heapsFree inner.block,
    Event.relevantDispose]

/-- `Resources::destroy_image_inner`: image variant of
`destroyBufferInner`. -/
def destroyImageInner (inner : Inner) : List Event :=
  [Event.deviceDestroyImage inner.raw, Event.heapsFree inner.block,
    Event.relevantDispose]

/-- `Resources::cleanup`: destroy every pending buffer `Inner` (in list
order), then every pending image `Inner`, then drain both Terminals into
the now-empty pending lists for the next cycle.  `Terminal::drain` is
modelled from the spec (it yields every queued payload in order and
empties the queue), the rest is the source's `cleanup` body. -/
def cleanup (st : ResourcesState) : ResourcesState × List Event :=
  (⟨[], [], st.buffers, st.images⟩,
    st.droppedBuffers.flatMap destroyBufferInner
      ++ st.droppedImages.flatMap destroyImageInner)

/-- Number of `deviceDestroyBuffer r` events in a log. -/
def destroyBufCount (r : Nat) (l : List Event) : Nat :=
  (l.filter (fun e => e = Event.deviceDestroyBuffer r)).length

/-- Number of `deviceDestroyImage r` events in a log. -/
def destroyImgCount (r : Nat) (l : List Event) : Nat :=
  (l.filter (fun e => e = Event.deviceDestroyImage r)).length

/-- Number of `deviceCreateBuffer` events in a log. -/
def createBufCount (l : List Event) : Nat :=
  (l.filter (fun e => match e with
    | Event.deviceCreateBuffer _ _ => true
    | _ => false)).length

/-- Number of `heapsAllocate` events in a log. -/
def allocCount (l : List Event) : Nat :=
  (l.filter (fun e => match e with
    | Event.heapsAllocate _ _ _ _ => true
    | _ => false)).length

/-- Number of `heapsFree` events in a log. -/
def freeCount (l : List Event) : Nat :=
  (l.filter (fun e => match e with
    | Event.heapsFree _ => true
    | _ => false)).length

/-- Number of `deviceDestroyBuffer` events (any raw id) in a log. -/
def destroyBufAnyCount (l : List Event) : Nat :=
  (l.filter (fun e => match e with
    | Event.deviceDestroyBuffer _ => true
    | _ => false)).length

/-- Number of occurrences of raw id `r` among a list of `Inner`s. -/
def rawCount (r : Nat) (l : List Inner) : Nat :=
  (l.filter (fun i => i.raw = r)).length

/-- Number of `deviceCreateImage` events in a log. -/
def createImgCount (l : List Event) : Nat :=
  (l.filter (fun e => match e with
    | Event.deviceCreateImage _ _ _ _ _ _ => true
    | _ => false)).length

/-- Number of `deviceDestroyImage` events (any raw id) in a log. -/
def destroyImgAnyCount (l : List Event) : Nat :=
  (l.filter (fun e => match e with
    | Event.deviceDestroyImage _ => true
    | _ => false)).length

/-! ## Helper lemmas -/

theorem destroyBuf_mem_bufInner (i : Inner) (r : Nat) :
    Event.deviceDestroyBuffer r ∈ destroyBufferInner i ↔ r = i.raw := by
  simp [destroyBufferInner]

theorem destroyBuf_not_mem_imgInner (i : Inner) (r : Nat) :
    Event.deviceDestroyBuffer r ∉ destroyImageInner i := by
  simp [destroyImageInner]

theorem destroyImg_mem_imgInner (i : Inner) (r : Nat) :
    Event.deviceDestroyImage r ∈ destroyImageInner i ↔ r = i.raw := by
  simp [destroyImageInner]

theorem destroyImg_not_mem_bufInner (i : Inner) (r : Nat) :
    Event.deviceDestroyImage r ∉ destroyBufferInner i := by
  simp [destroyBufferInner]

theorem destroyBufCount_append (r : Nat) (l₁ l₂ : List Event) :
    destroyBufCount r (l₁ ++ l₂) = destroyBufCount r l₁ + destroyBufCount r l₂ := by
  simp [destroyBufCount, List.filter_append]

theorem rawCount_append (r : Nat) (l₁ l₂ : List Inner) :
    rawCount r (l₁ ++ l₂) = rawCount r l₁ + rawCount r l₂ := by
  simp [rawCount, List.filter_append]

theorem destroyBufCount_bufInner (r : Nat) (i : Inner) :
    destroyBufCount r (destroyBufferInner i) = if i.raw = r then 1 else 0 := by
  by_cases h : i.raw = r <;>
    simp [destroyBufCount, destroyBufferInner, List.filter, h]

theorem destroyBufCount_imgInner (r : Nat) (i : Inner) :
    destroyBufCount r (destroyImageInner i) = 0 := by
  simp [destroyBufCount, destroyImageInner, List.filter]

theorem rawCount_cons (r : Nat) (a : Inner) (t : List Inner) :
    rawCount r (a :: t) = (if a.raw = r then 1 else 0) + rawCount r t := by
  by_cases h : a.raw = r <;> simp [rawCount, List.filter_cons, h, Nat.add_comm]

theorem destroyBufCount_flatMapBuf (r : Nat) (l : List Inner) :
    destroyBufCount r (l.flatMap destroyBufferInner) = rawCount r l := by
  induction l with
  | nil => rfl
  | cons a t ih =>
    rw [List.flatMap_cons, destroyBufCount_append, destroyBufCount_bufInner,
      ih, rawCount_cons]

theorem destroyBufCount_flatMapImg (r : Nat) (l : List Inner) :
    destroyBufCount r (l.flatMap destroyImageInner) = 0 := by
  induction l with
  | nil => rfl
  | cons a t ih =>
    rw [List.flatMap_cons, destroyBufCount_append, destroyBufCount_imgInner, ih]

theorem rawCount_singleton_self (i : Inner) : rawCount i.raw [i] = 1 := by
  simp [rawCount, List.filter]

theorem twoCleanup_destroyCount (s : ResourcesState) (r : Nat) :
    destroyBufCount r ((cleanup s).2 ++ (cleanup (cleanup s).1).2)
      = rawCount r (s.droppedBuffers ++ s.buffers) := by
  simp [cleanup, destroyBufCount_append, destroyBufCount_flatMapBuf,
    destroyBufCount_flatMapImg, rawCount_append]

theorem destroyImgCount_append (r : Nat) (l₁ l₂ : List Event) :
    destroyImgCount r (l₁ ++ l₂) = destroyImgCount r l₁ + destroyImgCount r l₂ := by
  simp [destroyImgCount, List.filter_append]

theorem destroyImgCount_imgInner (r : Nat) (i : Inner) :
    destroyImgCount r (destroyImageInner i) = if i.raw = r then 1 else 0 := by
  by_cases h : i.raw = r <;>
    simp [destroyImgCount, destroyImageInner, List.filter, h]

theorem destroyImgCount_bufInner (r : Nat) (i : Inner) :
    destroyImgCount r (destroyBufferInner i) = 0 := by
  simp [destroyImgCount, destroyBufferInner, List.filter]

theorem destroyImgCount_flatMapImg (r : Nat) (l : List Inner) :
    destroyImgCount r (l.flatMap destroyImageInner) = rawCount r l := by
  induction l with
  | nil => rfl
  | cons a t ih =>
    rw [List.flatMap_cons, destroyImgCount_append, destroyImgCount_imgInner,
      ih, rawCount_cons]

theorem destroyImgCount_flatMapBuf (r : Nat) (l : List Inner) :
    destroyImgCount r (l.flatMap destroyBufferInner) = 0 := by
  induction l with
  | nil => rfl
  | cons a t ih =>
    rw [List.flatMap_cons, destroyImgCount_append, destroyImgCount_bufInner, ih]

theorem twoCleanup_destroyImgCount (s : ResourcesState) (r : Nat) :
    destroyImgCount r ((cleanup s).2 ++ (cleanup (cleanup s).1).2)
      = rawCount r (s.droppedImages ++ s.images) := by
  simp [cleanup, destroyImgCount_append, destroyImgCount_flatMapImg,
    destroyImgCount_flatMapBuf, rawCount_append]

theorem twoCleanup_state (s : ResourcesState) :
    (cleanup (cleanup s).1).1 = ResourcesState.new := rfl

theorem isInfix_flatMap {α β : Type} (f : α → List β) {l : List α} {a : α}
    (ha : a ∈ l) : List.IsInfix (f a) (l.flatMap f) := by
  induction l with
  | nil => cases ha
  | cons x t ih =>
    rcases List.mem_cons.1 ha with rfl | ha2
    · exact ⟨[], t.flatMap f, by simp⟩
    · rcases ih ha2 with ⟨s, u, hsu⟩
      exact ⟨f x ++ s, u, by rw [List.flatMap_cons, ← hsu]; simp⟩

theorem length_flatMapBuf (l : List Inner) :
    (l.flatMap destroyBufferInner).length = 3 * l.length := by
  induction l with
  | nil => rfl
  | cons a t ih =>
    simp only [List.flatMap_cons, List.length_append, ih, destroyBufferInner,
      List.length_cons, List.length_nil, List.length_singleton]
    omega

theorem flatMapBuf_getElem (l : List Inner) (k : Nat) (hk : k < l.length) :
    (l.flatMap destroyBufferInner)[3 * k]?
      = some (Event.deviceDestroyBuffer l[k].raw) := by
  induction l generalizing k with
  | nil => exact absurd hk (Nat.not_lt_zero k)
  | cons a t ih =>
    cases k with
    | zero => rfl
    | succ k =>
      have h3 : 3 * (k + 1) = 3 * k + 3 := by ring
      rw [List.flatMap_cons, h3,
        List.getElem?_append_right (by simp [destroyBufferInner] : (destroyBufferInner a).length ≤ 3 * k + 3)]
      have h4 : 3 * k + 3 - (destroyBufferInner a).length = 3 * k := by
        simp [destroyBufferInner]
      rw [h4]
      simpa using ih k (Nat.lt_of_succ_lt_succ hk)

theorem flatMapImg_getElem (l : List Inner) (k : Nat) (hk : k < l.length) :
    (l.flatMap destroyImageInner)[3 * k]?
      = some (Event.deviceDestroyImage l[k].raw) := by
  induction l generalizing k with
  | nil => exact absurd hk (Nat.not_lt_zero k)
  | cons a t ih =>
    cases k with
    | zero => rfl
    | succ k =>
      have h3 : 3 * (k + 1) = 3 * k + 3 := by ring
      rw [List.flatMap_cons, h3,
        List.getElem?_append_right (by simp [destroyImageInner] : (destroyImageInner a).length ≤ 3 * k + 3)]
      have h4 : 3 * k + 3 - (destroyImageInner a).length = 3 * k := by
        simp [destroyImageInner]
      rw [h4]
      simpa using ih k (Nat.lt_of_succ_lt_succ hk)

/-! ## Claims -/

/-- C1: a handle of either kind dropped implicitly is routed through its
Terminal; one `cleanup` call does not destroy its `Inner` but moves it
into the kind's pending list (cleanup destroys only what was already
pending, then drains the Terminals), and a second `cleanup` call destroys
it. -/
theorem cleanup_grace_window (st : ResourcesState) (b : Buffer) (im : Image)
    (hB : ∀ j ∈ st.droppedBuffers, j.raw ≠ b.inner.raw)
    (hI : ∀ j ∈ st.droppedImages, j.raw ≠ im.inner.raw) :
    (Event.deviceDestroyBuffer b.inner.raw ∉ (cleanup (dropBuffer st b).1).2
      ∧ b.inner ∈ (cleanup (dropBuffer st b).1).1.droppedBuffers
      ∧ Event.deviceDestroyBuffer b.inner.raw
          ∈ (cleanup (cleanup (dropBuffer st b).1).1).2)
    ∧ (Event.deviceDestroyImage im.inner.raw ∉ (cleanup (dropImage st im).1).2
      ∧ im.inner ∈ (cleanup (dropImage st im).1).1.droppedImages
      ∧ Event.deviceDestroyImage im.inner.raw
          ∈ (cleanup (cleanup (dropImage st im).1).1).2) := by
  refine ⟨⟨?_, ?_, ?_⟩, ⟨?_, ?_, ?_⟩⟩
  · intro hmem
    rcases List.mem_append.1 hmem with h1 | h1
    · rcases List.mem_flatMap.1 h1 with ⟨i, hi, hev⟩
      exact hB i hi ((destroyBuf_mem_bufInner i _).1 hev).symm
    · rcases List.mem_flatMap.1 h1 with ⟨i, hi, hev⟩
      exact destroyBuf_not_mem_imgInner i _ hev
  · simp [cleanup, dropBuffer]
  · refine List.mem_append.2 (Or.inl (List.mem_flatMap.2 ⟨b.inner, ?_, ?_⟩))
    · simp [cleanup, dropBuffer]
    · simp [destroyBufferInner]
  · intro hmem
    rcases List.mem_append.1 hmem with h1 | h1
    · rcases List.mem_flatMap.1 h1 with ⟨i, hi, hev⟩
      exact destroyImg_not_mem_bufInner i _ hev
    · rcases List.mem_flatMap.1 h1 with ⟨i, hi, hev⟩
      exact hI i hi ((destroyImg_mem_imgInner i _).1 hev).symm
  · simp [cleanup, dropImage]
  · refine List.mem_append.2 (Or.inr (List.mem_flatMap.2 ⟨im.inner, ?_, ?_⟩))
    · simp [cleanup, dropImage]
    · simp [destroyImageInner]

/-- C1 witness: the grace-window theorem evaluated on a concrete freshly
dropped buffer handle and a concrete freshly dropped image handle over an
empty manager. -/
theorem cleanup_grace_window_witness :
    Event.deviceDestroyBuffer 5
        ∈ (cleanup (cleanup (dropBuffer ResourcesState.new
            ⟨⟨5, ⟨0, 0, 4⟩⟩, ⟨0, 16, 1⟩⟩).1).1).2
    ∧ Event.deviceDestroyImage 6
        ∈ (cleanup (cleanup (dropImage ResourcesState.new
            ⟨⟨6, ⟨0, 0, 4⟩⟩, ⟨0, 1, 1, 1, 1, 1, 1⟩⟩).1).1).2 :=
  ⟨(cleanup_grace_window ResourcesState.new ⟨⟨5, ⟨0, 0, 4⟩⟩, ⟨0, 16, 1⟩⟩
      ⟨⟨6, ⟨0, 0, 4⟩⟩, ⟨0, 1, 1, 1, 1, 1, 1⟩⟩ (by decide) (by decide)).1.2.2,
    (cleanup_grace_window ResourcesState.new ⟨⟨5, ⟨0, 0, 4⟩⟩, ⟨0, 16, 1⟩⟩
      ⟨⟨6, ⟨0, 0, 4⟩⟩, ⟨0, 1, 1, 1, 1, 1, 1⟩⟩ (by decide) (by decide)).2.2.2⟩

/-- C2: evaluation of `create_buffer` and `create_image` at an injected
allocation failure (device creation succeeds, `heaps.allocate` fails).
The call returns the allocation error, but the log holds one device
create call and zero device destroy calls: the raw object created in
step 1 is NOT destroyed before the error returns, contradicting the
claim that create/destroy call counts match. -/
theorem create_alloc_failure_leaks :
    (createBuffer ⟨false, false, 64, 8, 3, 100⟩ ⟨true, 0, 0, 0⟩
        ResourcesState.new 4 16 ⟨1, 2⟩).1 = Except.error RError.allocation
    ∧ createBufCount (createBuffer ⟨false, false, 64, 8, 3, 100⟩ ⟨true, 0, 0, 0⟩
        ResourcesState.new 4 16 ⟨1, 2⟩).2.2 = 1
    ∧ destroyBufAnyCount (createBuffer ⟨false, false, 64, 8, 3, 100⟩ ⟨true, 0, 0, 0⟩
        ResourcesState.new 4 16 ⟨1, 2⟩).2.2 = 0
    ∧ (createImage ⟨false, false, 64, 8, 3, 100⟩ ⟨true, 0, 0, 0⟩
        ResourcesState.new 4 10 1 20 30 40 ⟨1, 2⟩).1 = Except.error RError.allocation
    ∧ createImgCount (createImage ⟨false, false, 64, 8, 3, 100⟩ ⟨true, 0, 0, 0⟩
        ResourcesState.new 4 10 1 20 30 40 ⟨1, 2⟩).2.2 = 1
    ∧ destroyImgAnyCount (createImage ⟨false, false, 64, 8, 3, 100⟩ ⟨true, 0, 0, 0⟩
        ResourcesState.new 4 10 1 20 30 40 ⟨1, 2⟩).2.2 = 0 := by
  decide

/-- C3: a resource of either kind routed into the manager exactly once —
through the explicit destroy path (`destroy_buffer` / `destroy_image`) or
through the implicit drop path — has its raw object destroyed exactly
once over the following two cleanup cycles, after which the manager state
is completely empty, so no further release of it can ever happen: the
(object, block) pair is released at most once. -/
theorem release_at_most_once (st : ResourcesState) (b : Buffer) (im : Image)
    (explicitDestroy : Bool) (st1 st2 : ResourcesState)
    (hrouteB : st1 = if explicitDestroy then (destroyBuffer st b).1
        else (dropBuffer st b).1)
    (hrouteI : st2 = if explicitDestroy then (destroyImage st im).1
        else (dropImage st im).1)
    (hB : rawCount b.inner.raw (st.droppedBuffers ++ st.buffers) = 0)
    (hI : rawCount im.inner.raw (st.droppedImages ++ st.images) = 0) :
    destroyBufCount b.inner.raw ((cleanup st1).2 ++ (cleanup (cleanup st1).1).2) = 1
    ∧ (cleanup (cleanup st1).1).1 = ResourcesState.new
    ∧ destroyImgCount im.inner.raw
        ((cleanup st2).2 ++ (cleanup (cleanup st2).1).2) = 1
    ∧ (cleanup (cleanup st2).1).1 = ResourcesState.new := by
  refine ⟨?_, twoCleanup_state st1, ?_, twoCleanup_state st2⟩
  · rw [twoCleanup_destroyCount]
    rw [rawCount_append] at hB
    cases explicitDestroy with
    | true =>
      have hroute2 : st1 = (destroyBuffer st b).1 := by simpa using hrouteB
      subst hroute2
      show rawCount b.inner.raw ((st.droppedBuffers ++ [b.inner]) ++ st.buffers) = 1
      rw [rawCount_append, rawCount_append, rawCount_singleton_self]
      omega
    | false =>
      have hroute2 : st1 = (dropBuffer st b).1 := by simpa using hrouteB
      subst hroute2
      show rawCount b.inner.raw (st.droppedBuffers ++ (st.buffers ++ [b.inner])) = 1
      rw [rawCount_append, rawCount_append, rawCount_singleton_self]
      omega
  · rw [twoCleanup_destroyImgCount]
    rw [rawCount_append] at hI
    cases explicitDestroy with
    | true =>
      have hroute2 : st2 = (destroyImage st im).1 := by simpa using hrouteI
      subst hroute2
      show rawCount im.inner.raw ((st.droppedImages ++ [im.inner]) ++ st.images) = 1
      rw [rawCount_append, rawCount_append, rawCount_singleton_self]
      omega
    | false =>
      have hroute2 : st2 = (dropImage st im).1 := by simpa using hrouteI
      subst hroute2
      show rawCount im.inner.raw (st.droppedImages ++ (st.images ++ [im.inner])) = 1
      rw [rawCount_append, rawCount_append, rawCount_singleton_self]
      omega

/-- C3 witness: a concrete buffer and a concrete image, each explicitly
destroyed on an empty manager, are each destroyed exactly once across two
cleanups, which empty the manager. -/
theorem release_at_most_once_witness :
    destroyBufCount 9
        ((cleanup (destroyBuffer ResourcesState.new ⟨⟨9, ⟨0, 0, 8⟩⟩, ⟨0, 8, 1⟩⟩).1).2
          ++ (cleanup (cleanup (destroyBuffer ResourcesState.new
              ⟨⟨9, ⟨0, 0, 8⟩⟩, ⟨0, 8, 1⟩⟩).1).1).2) = 1
    ∧ (cleanup (cleanup (destroyBuffer ResourcesState.new
        ⟨⟨9, ⟨0, 0, 8⟩⟩, ⟨0, 8, 1⟩⟩).1).1).1 = ResourcesState.new
    ∧ destroyImgCount 11
        ((cleanup (destroyImage ResourcesState.new
            ⟨⟨11, ⟨0, 0, 8⟩⟩, ⟨0, 1, 1, 1, 1, 1, 1⟩⟩).1).2
          ++ (cleanup (cleanup (destroyImage ResourcesState.new
              ⟨⟨11, ⟨0, 0, 8⟩⟩, ⟨0, 1, 1, 1, 1, 1, 1⟩⟩).1).1).2) = 1
    ∧ (cleanup (cleanup (destroyImage ResourcesState.new
        ⟨⟨11, ⟨0, 0, 8⟩⟩, ⟨0, 1, 1, 1, 1, 1, 1⟩⟩).1).1).1 = ResourcesState.new :=
  release_at_most_once ResourcesState.new ⟨⟨9, ⟨0, 0, 8⟩⟩, ⟨0, 8, 1⟩⟩
    ⟨⟨11, ⟨0, 0, 8⟩⟩, ⟨0, 1, 1, 1, 1, 1, 1⟩⟩ true
    (destroyBuffer ResourcesState.new ⟨⟨9, ⟨0, 0, 8⟩⟩, ⟨0, 8, 1⟩⟩).1
    (destroyImage ResourcesState.new ⟨⟨11, ⟨0, 0, 8⟩⟩, ⟨0, 1, 1, 1, 1, 1, 1⟩⟩).1
    (by decide) (by decide) (by decide) (by decide)

/-- C4 counterexample: with a device reporting `type_mask = 2 ^ 32`, the
allocator is called with type mask `0` (the `as u32` cast truncates), not
with the device-reported `2 ^ 32`: the claim that the allocator is passed
the device-reported type_mask is false at this input. -/
theorem alloc_typeMask_truncated :
    Event.heapsAllocate 0 2 64 8
        ∈ (createBuffer ⟨false, false, 64, 8, 2 ^ 32, 100⟩ ⟨false, 7, 0, 64⟩
            ResourcesState.new 4 16 ⟨1, 2⟩).2.2
    ∧ Event.heapsAllocate (2 ^ 32) 2 64 8
        ∉ (createBuffer ⟨false, false, 64, 8, 2 ^ 32, 100⟩ ⟨false, 7, 0, 64⟩
            ResourcesState.new 4 16 ⟨1, 2⟩).2.2 := by
  decide

/-- C4 (amended): whenever device creation succeeds, `create_buffer` and
`create_image` call the allocator with alignment
`max(device-reported alignment, requested alignment)` — so the larger of
the two always wins — together with the device-reported type_mask
truncated to 32 bits (`as u32`), the usage-derived memory properties and
the device-reported size. -/
theorem alloc_params (dev : DeviceMock) (hp : HeapsMock) (st : ResourcesState)
    (align size usage_flags usage_memory kind levels format tiling viewCaps : Nat)
    (h : dev.createFails = false) :
    Event.heapsAllocate (dev.reqTypeMask % 2 ^ 32) usage_memory dev.reqSize
        (max dev.reqAlignment align)
        ∈ (createBuffer dev hp st align size ⟨usage_flags, usage_memory⟩).2.2
    ∧ Event.heapsAllocate (dev.reqTypeMask % 2 ^ 32) usage_memory dev.reqSize
        (max dev.reqAlignment align)
        ∈ (createImage dev hp st align kind levels format tiling viewCaps
            ⟨usage_flags, usage_memory⟩).2.2
    ∧ (align ≤ dev.reqAlignment → max dev.reqAlignment align = dev.reqAlignment)
    ∧ (dev.reqAlignment ≤ align → max dev.reqAlignment align = align) := by
  refine ⟨?_, ?_, fun hle => max_eq_left hle, fun hle => max_eq_right hle⟩
  · simp only [createBuffer, h, Bool.false_eq_true, if_false]
    split
    · simp
    · split <;> simp
  · simp only [createImage, h, Bool.false_eq_true, if_false]
    split
    · simp
    · split <;> simp

/-- C4 witness: the amended allocation-parameter theorem evaluated at a
concrete device whose reported alignment 8 exceeds the requested 4. -/
theorem alloc_params_witness :
    Event.heapsAllocate (3 % 2 ^ 32) 2 64 (max 8 4)
      ∈ (createBuffer ⟨false, false, 64, 8, 3, 100⟩ ⟨false, 7, 0, 64⟩
          ResourcesState.new 4 16 ⟨1, 2⟩).2.2 :=
  (alloc_params ⟨false, false, 64, 8, 3, 100⟩ ⟨false, 7, 0, 64⟩
    ResourcesState.new 4 16 1 2 0 0 0 0 0 rfl).1

/-- C5: evaluation of `create_buffer` and `create_image` at an injected
bind failure (creation and allocation succeed, `bind_*_memory` fails).
The call returns the bind error, yet the log holds one create and one
allocate but zero destroy and zero free calls: neither the raw object nor
the allocated block is released before the error returns, contradicting
the claim that nothing is leaked on the bind-failure path. -/
theorem create_bind_failure_leaks :
    (createBuffer ⟨false, true, 64, 8, 3, 100⟩ ⟨false, 7, 0, 64⟩
        ResourcesState.new 4 16 ⟨1, 2⟩).1 = Except.error RError.bindFailure
    ∧ createBufCount (createBuffer ⟨false, true, 64, 8, 3, 100⟩ ⟨false, 7, 0, 64⟩
        ResourcesState.new 4 16 ⟨1, 2⟩).2.2 = 1
    ∧ allocCount (createBuffer ⟨false, true, 64, 8, 3, 100⟩ ⟨false, 7, 0, 64⟩
        ResourcesState.new 4 16 ⟨1, 2⟩).2.2 = 1
    ∧ destroyBufAnyCount (createBuffer ⟨false, true, 64, 8, 3, 100⟩ ⟨false, 7, 0, 64⟩
        ResourcesState.new 4 16 ⟨1, 2⟩).2.2 = 0
    ∧ freeCount (createBuffer ⟨false, true, 64, 8, 3, 100⟩ ⟨false, 7, 0, 64⟩
        ResourcesState.new 4 16 ⟨1, 2⟩).2.2 = 0
    ∧ (createImage ⟨false, true, 64, 8, 3, 100⟩ ⟨false, 7, 0, 64⟩
        ResourcesState.new 4 10 1 20 30 40 ⟨1, 2⟩).1 = Except.error RError.bindFailure
    ∧ destroyImgAnyCount (createImage ⟨false, true, 64, 8, 3, 100⟩ ⟨false, 7, 0, 64⟩
        ResourcesState.new 4 10 1 20 30 40 ⟨1, 2⟩).2.2 = 0
    ∧ freeCount (createImage ⟨false, true, 64, 8, 3, 100⟩ ⟨false, 7, 0, 64⟩
        ResourcesState.new 4 10 1 20 30 40 ⟨1, 2⟩).2.2 = 0 := by
  decide

/-- C6: a successful `create_buffer` returns info exactly equal to the
passed align, size and usage flags; a successful `create_image` returns
info exactly equal to the passed align, kind, levels, format, tiling,
view_caps and usage flags. -/
theorem info_roundtrip (dev : DeviceMock) (hp : HeapsMock) (st : ResourcesState)
    (align size kind levels format tiling viewCaps : Nat)
    (usage usageI : Usage)
    (h1 : dev.createFails = false) (h2 : hp.allocFails = false)
    (h3 : dev.bindFails = false) :
    (createBuffer dev hp st align size usage).1.map Buffer.info
        = Except.ok ⟨align, size, usage.flags⟩
    ∧ (createImage dev hp st align kind levels format tiling viewCaps usageI).1.map
        Image.info
        = Except.ok ⟨align, kind, levels, format, tiling, viewCaps, usageI.flags⟩ := by
  constructor
  · simp [createBuffer, h1, h2, h3, Except.map]
  · simp [createImage, h1, h2, h3, Except.map]

/-- C6 witness: the info round-trip theorem evaluated at concrete
all-successful mocks. -/
theorem info_roundtrip_witness :
    (createBuffer ⟨false, false, 64, 8, 3, 100⟩ ⟨false, 7, 0, 64⟩
        ResourcesState.new 4 16 ⟨1, 2⟩).1.map Buffer.info
      = Except.ok ⟨4, 16, 1⟩ :=
  (info_roundtrip ⟨false, false, 64, 8, 3, 100⟩ ⟨false, 7, 0, 64⟩
    ResourcesState.new 4 16 0 0 0 0 0 ⟨1, 2⟩ ⟨1, 2⟩ rfl rfl rfl).1

/-- C7: `destroy_buffer` / `destroy_image` unwrap the Escape with
`into_inner` and append the Inner to the kind's pending-destruction list,
performing no device or allocator call (empty event log): destruction is
deferred to a later cleanup. -/
theorem destroy_is_bookkeeping (st : ResourcesState) (b : Buffer) (i : Image) :
    destroyBuffer st b
        = ({ st with droppedBuffers := st.droppedBuffers ++ [b.inner] }, [])
    ∧ destroyImage st i
        = ({ st with droppedImages := st.droppedImages ++ [i.inner] }, []) :=
  ⟨rfl, rfl⟩

/-- C8: the internal destroy-inner operation performs exactly: destroy the
raw object through the device, free the memory block through the
allocator, acknowledge the leak guard — in this order; and for every
pending Inner, cleanup's event log contains that three-call sequence
contiguously, so an Inner's raw object and block are always freed together
in the same destroy-inner invocation. -/
theorem destroy_inner_sequence (st : ResourcesState) (i : Inner) :
    destroyBufferInner i = [Event.deviceDestroyBuffer i.raw,
        Event.heapsFree i.block, Event.relevantDispose]
    ∧ destroyImageInner i = [Event.deviceDestroyImage i.raw,
        Event.heapsFree i.block, Event.relevantDispose]
    ∧ (∀ j ∈ st.droppedBuffers, List.IsInfix (destroyBufferInner j) (cleanup st).2)
    ∧ (∀ j ∈ st.droppedImages, List.IsInfix (destroyImageInner j) (cleanup st).2) := by
  refine ⟨rfl, rfl, ?_, ?_⟩
  · intro j hj
    rcases isInfix_flatMap destroyBufferInner hj with ⟨s, t, hst⟩
    exact ⟨s, t ++ st.droppedImages.flatMap destroyImageInner,
      by rw [cleanup]; rw [← hst]; simp⟩
  · intro j hj
    rcases isInfix_flatMap destroyImageInner hj with ⟨s, t, hst⟩
    exact ⟨st.droppedBuffers.flatMap destroyBufferInner ++ s, t,
      by rw [cleanup]; rw [← hst]; simp⟩

/-- C8 witness: the three-call destroy sequence of a concrete pending
buffer Inner appears contiguously in the cleanup log. -/
theorem destroy_inner_sequence_witness :
    List.IsInfix (destroyBufferInner ⟨5, ⟨1, 0, 8⟩⟩)
      (cleanup ⟨[], [], [⟨5, ⟨1, 0, 8⟩⟩], []⟩).2 :=
  (destroy_inner_sequence ⟨[], [], [⟨5, ⟨1, 0, 8⟩⟩], []⟩ ⟨5, ⟨1, 0, 8⟩⟩).2.2.1
    ⟨5, ⟨1, 0, 8⟩⟩ (by decide)

/-- C9: cleanup's event log is the buffer destroy sequences followed by
the image destroy sequences; the k-th pending buffer Inner's device
destroy call sits at log position 3k (append order = destruction order)
and the k-th pending image Inner's at position 3·|pending buffers| + 3k
(all buffers before any image); afterwards each pending list holds exactly
the Inners drained from that kind's Terminal, in drain order, and both
Terminals are empty. -/
theorem cleanup_ordering (st : ResourcesState) :
    (cleanup st).2 = st.droppedBuffers.flatMap destroyBufferInner
        ++ st.droppedImages.flatMap destroyImageInner
    ∧ (∀ k, (hk : k < st.droppedBuffers.length) →
        (cleanup st).2[3 * k]?
          = some (Event.deviceDestroyBuffer st.droppedBuffers[k].raw))
    ∧ (∀ k, (hk : k < st.droppedImages.length) →
        (cleanup st).2[3 * st.droppedBuffers.length + 3 * k]?
          = some (Event.deviceDestroyImage st.droppedImages[k].raw))
    ∧ (cleanup st).1 = ⟨[], [], st.buffers, st.images⟩ := by
  refine ⟨rfl, ?_, ?_, rfl⟩
  · intro k hk
    have hlt : 3 * k < (st.droppedBuffers.flatMap destroyBufferInner).length := by
      rw [length_flatMapBuf]
      omega
    calc (cleanup st).2[3 * k]?
        = (st.droppedBuffers.flatMap destroyBufferInner)[3 * k]? :=
          List.getElem?_append_left hlt
      _ = some (Event.deviceDestroyBuffer st.droppedBuffers[k].raw) :=
          flatMapBuf_getElem st.droppedBuffers k hk
  · intro k hk
    have hge : (st.droppedBuffers.flatMap destroyBufferInner).length
        ≤ 3 * st.droppedBuffers.length + 3 * k := by
      rw [length_flatMapBuf]
      omega
    have hsub : 3 * st.droppedBuffers.length + 3 * k
        - (st.droppedBuffers.flatMap destroyBufferInner).length = 3 * k := by
      rw [length_flatMapBuf]
      omega
    calc (cleanup st).2[3 * st.droppedBuffers.length + 3 * k]?
        = (st.droppedImages.flatMap destroyImageInner)[3 * st.droppedBuffers.length
            + 3 * k - (st.droppedBuffers.flatMap destroyBufferInner).length]? :=
          List.getElem?_append_right hge
      _ = (st.droppedImages.flatMap destroyImageInner)[3 * k]? := by rw [hsub]
      _ = some (Event.deviceDestroyImage st.droppedImages[k].raw) :=
          flatMapImg_getElem st.droppedImages k hk

/-- C9 witness: on a manager with one pending buffer and one pending
image, the buffer's destroy call is at log position 0 and the image's at
position 3. -/
theorem cleanup_ordering_witness :
    (cleanup ⟨[], [], [⟨7, ⟨0, 0, 4⟩⟩], [⟨8, ⟨1, 0, 4⟩⟩]⟩).2[0]?
        = some (Event.deviceDestroyBuffer 7)
    ∧ (cleanup ⟨[], [], [⟨7, ⟨0, 0, 4⟩⟩], [⟨8, ⟨1, 0, 4⟩⟩]⟩).2[3]?
        = some (Event.deviceDestroyImage 8) := by
  have h1 := (cleanup_ordering ⟨[], [], [⟨7, ⟨0, 0, 4⟩⟩], [⟨8, ⟨1, 0, 4⟩⟩]⟩).2.1
    0 (by decide)
  have h2 := (cleanup_ordering ⟨[], [], [⟨7, ⟨0, 0, 4⟩⟩], [⟨8, ⟨1, 0, 4⟩⟩]⟩).2.2.1
    0 (by decide)
  exact ⟨by simpa using h1, by simpa using h2⟩

/-- C10: `destroy_buffer` changes only the buffer pending list (image
pending list and both Terminal queues untouched), `destroy_image` changes
only the image pending list, and `create_buffer` / `create_image` leave
the whole manager state — in particular both pending lists — unchanged. -/
theorem ops_frame (dev : DeviceMock) (hp : HeapsMock) (st : ResourcesState)
    (b : Buffer) (i : Image)
    (align size kind levels format tiling viewCaps : Nat) (usage usageI : Usage) :
    (destroyBuffer st b).1.images = st.images
    ∧ (destroyBuffer st b).1.droppedImages = st.droppedImages
    ∧ (destroyBuffer st b).1.buffers = st.buffers
    ∧ (destroyImage st i).1.buffers = st.buffers
    ∧ (destroyImage st i).1.droppedBuffers = st.droppedBuffers
    ∧ (destroyImage st i).1.images = st.images
    ∧ (createBuffer dev hp st align size usage).2.1 = st
    ∧ (createImage dev hp st align kind levels format tiling viewCaps usageI).2.1
        = st := by
  obtain ⟨cf, bf, rs, ra, rt, nr⟩ := dev
  obtain ⟨af, bm, bs, be⟩ := hp
  cases cf <;> cases af <;> cases bf <;>
    exact ⟨rfl, rfl, rfl, rfl, rfl, rfl, rfl, rfl⟩

end Rendy
